import Mathlib

/-!
Verification development for the stubble-burning fire detection and
prediction system.  The frontend TypeScript sources are shallowly embedded:
JavaScript numbers carrying exact decimal data (coordinates, fire radiative
power) are modelled as rationals, integer-valued quantities (confidence,
probability, epoch-millisecond timestamps) as integers, and fallible
operations as `Except` / `Option` values.  Components of the backend that
are referenced but whose code is absent (the risk-prediction engine and the
report intake endpoint) are modelled from the specification and are marked
as such in their doc comments.
-/

/-- Ordinal risk level of a prediction cell (`riskLevel` in
`PredictionData`). -/
inductive RiskLevel
  | low
  | medium
  | high
  | critical
deriving DecidableEq, Repr

/-- Embedding of the `PredictionData` interface
(`frontend/src/app/fire-prediction/page.tsx` usage sites).  `createdAt` is an
ISO timestamp string in the source; the panels consume it only through
`new Date(s).getTime()`, so it is modelled directly as the epoch-millisecond
value. -/
structure PredictionData where
  id : String
  latitude : ℚ
  longitude : ℚ
  probability : Int
  riskLevel : RiskLevel
  predictedDate : String
  factors : List String
  confidence : Int
  region : String
  createdAt : Int
deriving DecidableEq, Repr

/-- The hard-coded `samplePredictions` array of
`PredictionAnalysisModal.generateFallbackPredictions`; `now` stands for the
`new Date().toISOString()` timestamp taken at construction time. -/
def samplePredictions (now : Int) : List PredictionData :=
  [ { id := "pred-1"
      latitude := 30.8917
      longitude := 75.8517
      probability := 87
      riskLevel := .high
      predictedDate := "2025-06-25"
      factors := ["historical hotspot", "peak fire season", "recurring location"]
      confidence := 89
      region := "punjab"
      createdAt := now },
    { id := "pred-2"
      latitude := 29.0588
      longitude := 76.0856
      probability := 72
      riskLevel := .medium
      predictedDate := "2025-06-26"
      factors := ["seasonal pattern", "moderate activity"]
      confidence := 75
      region := "haryana"
      createdAt := now },
    { id := "pred-3"
      latitude := 31.6340
      longitude := 74.8723
      probability := 94
      riskLevel := .critical
      predictedDate := "2025-06-24"
      factors := ["peak burning season", "historical hotspot", "strong seasonal pattern"]
      confidence := 92
      region := "punjab"
      createdAt := now } ]

/-- `PredictionAnalysisModal.generateFallbackPredictions`: the sample
predictions filtered by the caller-supplied confidence threshold
(`pred.confidence >= filters.confidenceLevel`). -/
def generateFallbackPredictions (now conf : Int) : List PredictionData :=
  (samplePredictions now).filter (fun pred => decide (conf ≤ pred.confidence))

/-- `PredictionAnalysisModal.generateRealPredictions`: calls the predict API;
on success delivers `response.predictions || []`, on any error falls back to
`generateFallbackPredictions()`.  The API call outcome is the `Except`
argument (`.ok` with the optional `predictions` field of the response,
`.error` for a failed call). -/
def generateRealPredictions (apiOutcome : Except Unit (Option (List PredictionData)))
    (now conf : Int) : List PredictionData :=
  match apiOutcome with
  | .ok response => response.getD []
  | .error _ => generateFallbackPredictions now conf

/-- Milliseconds per day, the divisor `1000 * 60 * 60 * 24` used by
`handleRefresh`. -/
def msPerDay : Int := 86400000

/-- `Math.ceil(a / b)` for integers `a` and positive `b` (JavaScript divides
in floating point and then takes the ceiling; on exact integer data this is
the integer ceiling). -/
def jsCeilDiv (a b : Int) : Int := -(Int.fdiv (-a) b)

/-- Date-range validation of `handleRefresh`
(`frontend/src/app/fire-detection/page.tsx`) once both custom bounds are
present: `daysDiff = Math.ceil((end - start) / msPerDay)` is checked against
31, then the bound order is checked.  Date-input strings parse to UTC
midnight, so the bounds are epoch-millisecond integers. -/
def validateCustomRange (startMs endMs : Int) : Except String Unit :=
  let daysDiff := jsCeilDiv (endMs - startMs) msPerDay
  if 31 < daysDiff then .error "Date range cannot exceed 31 days"
  else if endMs < startMs then .error "Start date must be before end date"
  else .ok ()

/-- Date range selector of `FilterState`. -/
inductive DateRange
  | h24
  | d7
  | custom
deriving DecidableEq, Repr

/-- Source toggles of `FilterState.sources`. -/
structure SourcesState where
  modis : Bool
  viirs : Bool
  userReported : Bool
deriving DecidableEq, Repr

/-- Embedding of `FilterState` from
`frontend/src/app/fire-detection/page.tsx`; the optional custom bounds are
epoch-millisecond values of the date strings (an absent or empty string is
`none`). -/
structure FilterState where
  region : String
  dateRange : DateRange
  customStartDate : Option Int
  customEndDate : Option Int
  sources : SourcesState
deriving DecidableEq, Repr

/-- The validation stage of `handleRefresh`: for a custom range, both bounds
must be present and `validateCustomRange` must pass; the other date ranges
are not validated. -/
def validateFilters (f : FilterState) : Except String Unit :=
  match f.dateRange with
  | .custom =>
    match f.customStartDate, f.customEndDate with
    | some s, some e => validateCustomRange s e
    | _, _ => .error "Please select both start and end dates for custom range"
  | _ => .ok ()

/-- Satellite or citizen origin of a fire record (`FireData.source`). -/
inductive FireSource
  | modis
  | viirs
  | userReported
deriving DecidableEq, Repr

/-- Embedding of the `FireData` interface (`frontend/src/lib/api.ts`).
`acqDatetimeMs` models `new Date(acq_datetime).getTime()`, the only way the
panels consume the datetime string. -/
structure FireData where
  id : String
  latitude : ℚ
  longitude : ℚ
  brightness : ℚ
  confidence : Int
  acq_date : String
  acq_time : String
  acqDatetimeMs : Int
  source : FireSource
  frp : Option ℚ
  state : Option String
  district : Option String
deriving DecidableEq, Repr

/-- Embedding of the `FireFilterResponse` interface
(`frontend/src/lib/api.ts`). -/
structure FireFilterResponse where
  fires : List FireData
  total_count : Int
  filtered_count : Int
  region : String
  date_range : String
deriving DecidableEq, Repr

/-- Final component state produced by one `handleRefresh` run: the `fires`
and `filteredFires` lists and the `error` banner. -/
structure RefreshResult where
  fires : List FireData
  filteredFires : List FireData
  error : Option String
deriving DecidableEq, Repr

/-- `handleRefresh` (`frontend/src/app/fire-detection/page.tsx`): validation
errors are thrown before the `apiClient.detectFires` call; the catch block
records the message and clears both fire lists.  The detect API is the
function argument `api`, so the validation-failure path never evaluates
it. -/
def handleRefresh (filters : FilterState)
    (api : FilterState → Except String FireFilterResponse) : RefreshResult :=
  match validateFilters filters with
  | .error msg => { fires := [], filteredFires := [], error := some msg }
  | .ok _ =>
    match api filters with
    | .ok response =>
      { fires := response.fires, filteredFires := response.fires, error := none }
    | .error msg => { fires := [], filteredFires := [], error := some msg }

/-- Days since 1970-01-01 of a proleptic-Gregorian civil date, the value
underlying `new Date("YYYY-MM-DD").getTime() / msPerDay`. -/
def daysFromCivil (y m d : Int) : Int :=
  let y2 := if m ≤ 2 then y - 1 else y
  let era := Int.fdiv y2 400
  let yoe := y2 - era * 400
  let mp := if 2 < m then m - 3 else m + 9
  let doy := Int.fdiv (153 * mp + 2) 5 + d - 1
  let doe := yoe * 365 + Int.fdiv yoe 4 - Int.fdiv yoe 100 + doy
  era * 146097 + doe - 719468

/-- Epoch milliseconds of a `YYYY-MM-DD` date string, as parsed by
JavaScript `new Date` (UTC midnight). -/
def dateMs (y m d : Int) : Int := msPerDay * daysFromCivil y m d

/-- Stable insertion into a list ordered by a JavaScript-style three-way
comparator: the new element goes after every element comparing less-or-equal
to it, as `Array.prototype.sort` (stable since ES2019) places later input
elements after equal earlier ones. -/
def insertByCmp (cmp : α → α → Int) (x : α) : List α → List α
  | [] => [x]
  | y :: ys => if cmp y x ≤ 0 then y :: insertByCmp cmp x ys else x :: y :: ys

/-- Stable sort by a three-way comparator, modelling
`Array.prototype.sort(cmp)`. -/
def sortByCmp (cmp : α → α → Int) (l : List α) : List α :=
  l.foldl (fun acc x => insertByCmp cmp x acc) []

/-- The comparator of `RecentPredictionsPanel.sortedPredictions`: creation
time descending first, then probability descending
(`if (dateA !== dateB) return dateB - dateA; return b.probability -
a.probability`). -/
def predCmp (a b : PredictionData) : Int :=
  if a.createdAt ≠ b.createdAt then b.createdAt - a.createdAt
  else b.probability - a.probability

/-- `RecentPredictionsPanel.sortedPredictions`
(`frontend/src/components/RecentPredictionsPanel.tsx`): the spread copy of
the prop sorted with `predCmp`. -/
def sortedPredictions (predictions : List PredictionData) : List PredictionData :=
  sortByCmp predCmp predictions

/-- Modelled from the spec: ranking comparator of the Risk Prediction Engine
(spec 4.5 step 6) — probability descending, ties broken by confidence
descending, then by cell latitude ascending.  The engine code is not under
`src/`. -/
def specCmp (a b : PredictionData) : Int :=
  if a.probability ≠ b.probability then b.probability - a.probability
  else if a.confidence ≠ b.confidence then b.confidence - a.confidence
  else if a.latitude < b.latitude then -1
  else if b.latitude < a.latitude then 1
  else 0

/-- Modelled from the spec: the `predict` endpoint of the Risk Prediction
Engine (spec 4.5 step 6, not under `src/`) filters the scored cells to those
meeting the caller-supplied minimum confidence and ranks them with
`specCmp`. -/
def backendPredict (cells : List PredictionData) (t : Int) : List PredictionData :=
  sortByCmp specCmp (cells.filter (fun c => decide (t ≤ c.confidence)))

/-- Modelled from the spec: `risk_level` thresholds of the Risk Prediction
Engine (spec 4.5 step 5, not under `src/`): probability at least 90 is
critical, at least 75 high, at least 50 medium, otherwise low. -/
def riskLevelOf (p : Int) : RiskLevel :=
  if 90 ≤ p then .critical
  else if 75 ≤ p then .high
  else if 50 ≤ p then .medium
  else .low

/-- Outcome of the predict API call seen by `generateRealPredictions`: either
the call fails, or it succeeds and delivers the engine output for the stored
historical cells. -/
def outcomeOf (apiFails : Bool) (hist : List PredictionData) (t : Int) :
    Except Unit (Option (List PredictionData)) :=
  if apiFails then .error () else .ok (some (backendPredict hist t))

/-- Severity selector of the user report form (`UserReportData.severity`, a
closed four-variant union in the source). -/
inductive Severity
  | Low
  | Medium
  | High
  | Critical
deriving DecidableEq, Repr

/-- Smoke visibility selector of the user report form. -/
inductive SmokeVisibility
  | NoneVisible
  | Light
  | Moderate
  | Heavy
deriving DecidableEq, Repr

/-- Embedding of the `UserReportData` interface
(`frontend/src/components/UserReportForm.tsx`). -/
structure UserReportData where
  latitude : ℚ
  longitude : ℚ
  severity : Severity
  description : Option String
  reporter_name : Option String
  reporter_contact : Option String
  location_name : Option String
  estimated_area : Option ℚ
  smoke_visibility : Option SmokeVisibility
deriving DecidableEq, Repr

/-- The three steps of the report form wizard. -/
inductive ReportStep
  | location
  | details
  | contact
deriving DecidableEq, Repr

/-- The estimated-area check of the details step:
`formData.estimated_area && (formData.estimated_area < 0 ||
formData.estimated_area > 1000)` — the check is skipped when the field is
absent or 0 (both JavaScript-falsy). -/
def areaErrors (area : Option ℚ) : List String :=
  match area with
  | some a =>
    if a ≠ 0 ∧ (a < 0 ∨ 1000 < a) then
      ["Estimated area should be between 0 and 1000 hectares"] else []
  | none => []

/-- `UserReportForm.validateStep`: the error messages collected for one step.
`!formData.latitude` is the JavaScript falsiness test, true exactly on the
number 0; the severity check `!formData.severity` can never fire because the
severity is a nonempty-string union, and the contact step has no rules. -/
def validateStep (f : UserReportData) : ReportStep → List String
  | .location =>
    (if f.latitude = 0 ∨ f.latitude < 20 ∨ 40 < f.latitude then
      ["Please enter a valid latitude between 20 and 40"] else [])
    ++ (if f.longitude = 0 ∨ f.longitude < 68 ∨ 88 < f.longitude then
      ["Please enter a valid longitude between 68 and 88"] else [])
  | .details => areaErrors f.estimated_area
  | .contact => []

/-- A step passes when its error object is empty
(`Object.keys(newErrors).length === 0`). -/
def stepOk (f : UserReportData) (s : ReportStep) : Bool :=
  (validateStep f s).isEmpty

/-- The submission gate of the three-step form: `handleNext` requires the
location step and then the details step to validate, and `handleSubmit`
requires the contact step to validate before calling `onSubmit(formData)`;
the submitted data is the data that passed each gate. -/
def submitFlow (f : UserReportData) : Option UserReportData :=
  if stepOk f .location && stepOk f .details && stepOk f .contact then some f
  else none

/-- A fire record as stored by the report intake. -/
structure StoredReport where
  id : String
  latitude : ℚ
  longitude : ℚ
  severity : Severity
  source : String
  createdAt : Int
deriving DecidableEq, Repr

/-- Modelled from the spec: the record built by User Report Intake (spec 4.6,
not under `src/`) — `source = user-reported`, with the stable id derived from
the source, the coordinates and the acquisition timestamp (spec 3). -/
def mkStoredReport (r : UserReportData) (now : Int) : StoredReport :=
  { id := "user-reported_" ++ toString r.latitude ++ "_" ++ toString r.longitude
      ++ "_" ++ toString now
    latitude := r.latitude
    longitude := r.longitude
    severity := r.severity
    source := "user-reported"
    createdAt := now }

/-- Modelled from the spec: `Store.insert_report` (spec 4.2, not under
`src/`) always inserts the record — a citizen report is never deduplicated —
and returns the stored record. -/
def insertReport (record : StoredReport) (store : List StoredReport) :
    StoredReport × List StoredReport :=
  (record, record :: store)

/-- Modelled from the spec: the `report(...) -> {id}` API operation (spec 4.6
and 6, its client method and endpoint are not under `src/`): builds the
record, stores it via `insertReport`, and answers with the stored record
id. -/
def reportFire (r : UserReportData) (now : Int) (store : List StoredReport) :
    String × List StoredReport :=
  let record := mkStoredReport r now
  let (stored, newStore) := insertReport record store
  (stored.id, newStore)

/-- `handleUserReport` (`frontend/src/app/fire-detection/page.tsx`): on a
successful report call, the page surfaces the acknowledgment banner
containing the returned id. -/
def handleUserReport (r : UserReportData) (now : Int) (store : List StoredReport) :
    Option String × List StoredReport :=
  let (id, newStore) := reportFire r now store
  (some ("Report submitted successfully! Report ID: " ++ id), newStore)

/-- The report path end to end: the form gates of `submitFlow` followed by
`handleUserReport`; a report that fails a gate is never submitted and the
store is untouched. -/
def submitAndReport (f : UserReportData) (now : Int) (store : List StoredReport) :
    Option String × List StoredReport :=
  match submitFlow f with
  | some r => handleUserReport r now store
  | none => (none, store)

/-- `Math.round` on an exact rational value: round half away from zero is
round half up for the nonnegative averages at stake; JavaScript rounds half
toward positive infinity, i.e. the floor of `q + 1/2`. -/
def jsRound (q : ℚ) : Int := ⌊q + 1 / 2⌋

/-- `PredictionMapStats.averageConfidence`: guarded by `predictions.length >
0`, otherwise 0. -/
def averagePredictionConfidence (predictions : List PredictionData) : Int :=
  if 0 < predictions.length then
    jsRound (((predictions.foldl (fun sum pred => sum + pred.confidence) 0 : Int) : ℚ)
      / (predictions.length : ℚ))
  else 0

/-- `PredictionMapStats.averageProbability`: guarded by `predictions.length >
0`, otherwise 0. -/
def averagePredictionProbability (predictions : List PredictionData) : Int :=
  if 0 < predictions.length then
    jsRound (((predictions.foldl (fun sum pred => sum + pred.probability) 0 : Int) : ℚ)
      / (predictions.length : ℚ))
  else 0

/-- `MapStats.averageConfidence` (`frontend/src/components/MapStats.tsx`):
guarded by `fires.length > 0`, otherwise 0. -/
def averageFireConfidence (fires : List FireData) : Int :=
  if 0 < fires.length then
    jsRound (((fires.foldl (fun sum fire => sum + fire.confidence) 0 : Int) : ℚ)
      / (fires.length : ℚ))
  else 0

/-- The `totalPredictions === 0` render branch of `PredictionMapStats`
showing the `no predictions generated yet` empty state. -/
def predictionsEmptyState (predictions : List PredictionData) : Bool :=
  predictions.length == 0

/-- The comparator of `RecentFiresPanel.sortedFires`: acquisition datetime
descending (`dateB - dateA`). -/
def fireCmp (a b : FireData) : Int := b.acqDatetimeMs - a.acqDatetimeMs

/-- `RecentFiresPanel.sortedFires`: the spread copy of the prop sorted most
recent first. -/
def sortedFires (fires : List FireData) : List FireData :=
  sortByCmp fireCmp fires

/-- The `sortedFires.length === 0` render branch of `RecentFiresPanel`
showing the `no fires detected in the selected criteria` empty state. -/
def recentFiresEmptyState (fires : List FireData) : Bool :=
  (sortedFires fires).length == 0

/-- Three-bucket fire-radiative-power severity: at least 40 MW high, at least
10 MW medium, otherwise low. -/
inductive FrpSeverity
  | low
  | medium
  | high
deriving DecidableEq, Repr

/-- The common threshold scheme of the display helpers. -/
def classifyFrp (frp : ℚ) : FrpSeverity :=
  if 40 ≤ frp then .high
  else if 10 ≤ frp then .medium
  else .low

/-- `getPowerSeverityLabel` (`frontend/src/lib/api.ts`). -/
def getPowerSeverityLabel (frp : ℚ) : String :=
  if 40 ≤ frp then "high"
  else if 10 ≤ frp then "medium"
  else "low"

/-- `getPowerSeverityColor` (`frontend/src/lib/api.ts`). -/
def getPowerSeverityColor (frp : ℚ) : String :=
  if 40 ≤ frp then "text-red-600"
  else if 10 ≤ frp then "text-orange-600"
  else "text-green-600"

/-- `getPowerSeverityBg` (`frontend/src/lib/api.ts`). -/
def getPowerSeverityBg (frp : ℚ) : String :=
  if 40 ≤ frp then "bg-red-100 border-red-200"
  else if 10 ≤ frp then "bg-orange-100 border-orange-200"
  else "bg-green-100 border-green-200"

/-- `FireMap.getFireColor` (`frontend/src/components/FireMap.tsx`). -/
def getFireColor (frp : ℚ) : String :=
  if 40 ≤ frp then "#DC2626"
  else if 10 ≤ frp then "#FB923C"
  else "#22C55E"

/-- Display name of an `FrpSeverity` bucket. -/
def severityName : FrpSeverity → String
  | .high => "high"
  | .medium => "medium"
  | .low => "low"

/-- Text color of an `FrpSeverity` bucket. -/
def severityTextColor : FrpSeverity → String
  | .high => "text-red-600"
  | .medium => "text-orange-600"
  | .low => "text-green-600"

/-- Background class of an `FrpSeverity` bucket. -/
def severityBgClass : FrpSeverity → String
  | .high => "bg-red-100 border-red-200"
  | .medium => "bg-orange-100 border-orange-200"
  | .low => "bg-green-100 border-green-200"

/-- Map marker color of an `FrpSeverity` bucket. -/
def severityHex : FrpSeverity → String
  | .high => "#DC2626"
  | .medium => "#FB923C"
  | .low => "#22C55E"

/-- Every call site passes `fire.frp || 0`: a missing (or zero) fire
radiative power is replaced by 0. -/
def effectiveFrp (frp : Option ℚ) : ℚ := frp.getD 0

/-- A filter state selecting a custom range without either bound, as the
page starts in when the user switches to `custom` and refreshes. -/
def fMissingBounds : FilterState :=
  { region := "punjab"
    dateRange := .custom
    customStartDate := none
    customEndDate := none
    sources := { modis := true, viirs := true, userReported := false } }

/-- A concrete fire record in the shape documented for the detect
endpoint. -/
def sampleFireRecord : FireData :=
  { id := "MODIS_30.7333_76.7794_2025-06-21_1030"
    latitude := 30.7333
    longitude := 76.7794
    brightness := 325.5
    confidence := 75
    acq_date := "2025-06-21"
    acq_time := "1030"
    acqDatetimeMs := 1750501800000
    source := .modis
    frp := some 12.5
    state := some "punjab"
    district := none }

/-- A detect API stub answering with one fire. -/
def apiOkStub : FilterState → Except String FireFilterResponse :=
  fun _ => .ok
    { fires := [sampleFireRecord]
      total_count := 1
      filtered_count := 1
      region := "punjab"
      date_range := "custom" }

/-- A detect API stub failing with a network error. -/
def apiErrStub : FilterState → Except String FireFilterResponse :=
  fun _ => .error "Network error or invalid response"

/-- A prediction created later (larger `createdAt`) but with the lower
probability. -/
def predNewerLowProb : PredictionData :=
  { id := "p-newer"
    latitude := 30
    longitude := 75
    probability := 10
    riskLevel := .low
    predictedDate := "2025-06-25"
    factors := []
    confidence := 50
    region := "punjab"
    createdAt := 1 }

/-- A prediction created earlier (smaller `createdAt`) but with the higher
probability and confidence. -/
def predOlderHighProb : PredictionData :=
  { id := "p-older"
    latitude := 31
    longitude := 76
    probability := 99
    riskLevel := .critical
    predictedDate := "2025-06-25"
    factors := []
    confidence := 99
    region := "punjab"
    createdAt := 0 }

/-- The initial `formData` of `UserReportForm` (a valid report). -/
def defaultReport : UserReportData :=
  { latitude := 30.7333
    longitude := 76.7794
    severity := .Medium
    description := some ""
    reporter_name := some ""
    reporter_contact := some ""
    location_name := some ""
    estimated_area := none
    smoke_visibility := some .Light }

/-- A report sitting on the lower boundary of every validated envelope. -/
def boundaryLowReport : UserReportData :=
  { latitude := 20
    longitude := 68
    severity := .Low
    description := none
    reporter_name := none
    reporter_contact := none
    location_name := none
    estimated_area := some 0
    smoke_visibility := none }

/-- A report sitting on the upper boundary of every validated envelope. -/
def boundaryHighReport : UserReportData :=
  { latitude := 40
    longitude := 88
    severity := .Critical
    description := none
    reporter_name := none
    reporter_contact := none
    location_name := none
    estimated_area := some 1000
    smoke_visibility := none }

/-- The ranking the claim asserts for the presented list, written from the
spec (spec 4.5 step 6): probability descending, ties broken by confidence
descending, then by latitude ascending. -/
def specRanked (l : List PredictionData) : Prop :=
  l.Pairwise (fun a b =>
    b.probability < a.probability
    ∨ (a.probability = b.probability
       ∧ (b.confidence < a.confidence
          ∨ (a.confidence = b.confidence ∧ a.latitude ≤ b.latitude))))

/-- The order actually enforced by `RecentPredictionsPanel.sortedPredictions`:
creation time descending, ties broken by probability descending. -/
def panelRank (a b : PredictionData) : Prop :=
  b.createdAt < a.createdAt
  ∨ (a.createdAt = b.createdAt ∧ b.probability ≤ a.probability)

theorem mem_insertByCmp {α : Type} (cmp : α → α → Int) (x a : α) (l : List α) :
    a ∈ insertByCmp cmp x l ↔ a = x ∨ a ∈ l := by
  induction l with
  | nil => simp [insertByCmp]
  | cons y ys ih =>
    by_cases h : cmp y x ≤ 0
    · simp only [insertByCmp, if_pos h, List.mem_cons, ih]
      tauto
    · simp only [insertByCmp, if_neg h, List.mem_cons]

theorem insertByCmp_perm {α : Type} (cmp : α → α → Int) (x : α) (l : List α) :
    (insertByCmp cmp x l).Perm (x :: l) := by
  induction l with
  | nil => exact List.Perm.refl _
  | cons y ys ih =>
    by_cases h : cmp y x ≤ 0
    · simp only [insertByCmp, if_pos h]
      exact (ih.cons y).trans (List.Perm.swap x y ys)
    · simp only [insertByCmp, if_neg h]
      exact List.Perm.refl _

theorem sortByCmp_perm {α : Type} (cmp : α → α → Int) (l : List α) :
    (sortByCmp cmp l).Perm l := by
  have h : ∀ (l acc : List α),
      (l.foldl (fun acc x => insertByCmp cmp x acc) acc).Perm (acc ++ l) := by
    intro l
    induction l with
    | nil => intro acc; simp
    | cons x xs ih =>
      intro acc
      have h1 := ih (insertByCmp cmp x acc)
      have h2 : (insertByCmp cmp x acc ++ xs).Perm (acc ++ x :: xs) :=
        ((insertByCmp_perm cmp x acc).append_right xs).trans List.perm_middle.symm
      simpa [List.foldl] using h1.trans h2
  simpa [sortByCmp] using h l []

theorem pairwise_insertByCmp {α : Type} (cmp : α → α → Int)
    (htot : ∀ a b, cmp a b ≤ 0 ∨ cmp b a ≤ 0)
    (htrans : ∀ a b c, cmp a b ≤ 0 → cmp b c ≤ 0 → cmp a c ≤ 0)
    (x : α) (l : List α) (h : l.Pairwise (fun a b => cmp a b ≤ 0)) :
    (insertByCmp cmp x l).Pairwise (fun a b => cmp a b ≤ 0) := by
  induction l with
  | nil => simp [insertByCmp]
  | cons y ys ih =>
    rcases List.pairwise_cons.mp h with ⟨hy, hys⟩
    by_cases hc : cmp y x ≤ 0
    · simp only [insertByCmp, if_pos hc]
      refine List.pairwise_cons.mpr ⟨?_, ih hys⟩
      intro z hz
      rcases (mem_insertByCmp cmp x z ys).mp hz with rfl | hz2
      · exact hc
      · exact hy z hz2
    · simp only [insertByCmp, if_neg hc]
      refine List.pairwise_cons.mpr ⟨?_, h⟩
      intro z hz
      have hxy : cmp x y ≤ 0 := (htot y x).resolve_left hc
      rcases List.mem_cons.mp hz with rfl | hz2
      · exact hxy
      · exact htrans x y z hxy (hy z hz2)

theorem pairwise_sortByCmp {α : Type} (cmp : α → α → Int)
    (htot : ∀ a b, cmp a b ≤ 0 ∨ cmp b a ≤ 0)
    (htrans : ∀ a b c, cmp a b ≤ 0 → cmp b c ≤ 0 → cmp a c ≤ 0)
    (l : List α) :
    (sortByCmp cmp l).Pairwise (fun a b => cmp a b ≤ 0) := by
  have h : ∀ (l acc : List α), acc.Pairwise (fun a b => cmp a b ≤ 0) →
      (l.foldl (fun acc x => insertByCmp cmp x acc) acc).Pairwise
        (fun a b => cmp a b ≤ 0) := by
    intro l
    induction l with
    | nil => intro acc hacc; simpa using hacc
    | cons x xs ih =>
      intro acc hacc
      exact ih _ (pairwise_insertByCmp cmp htot htrans x acc hacc)
  simpa [sortByCmp] using h l [] List.Pairwise.nil

theorem predCmp_total (a b : PredictionData) : predCmp a b ≤ 0 ∨ predCmp b a ≤ 0 := by
  unfold predCmp
  split_ifs <;> omega

theorem predCmp_trans (a b c : PredictionData) (h1 : predCmp a b ≤ 0)
    (h2 : predCmp b c ≤ 0) : predCmp a c ≤ 0 := by
  unfold predCmp at h1 h2 ⊢
  split_ifs at h1 h2 ⊢ <;> omega

/-- C1: on a failed predict API call the caller is silently handed the
sample predictions; the delivered list is byte-for-byte the list a
successful API response with the same payload would deliver, and it is not
empty, so the substitution carries no provenance tag and is
indistinguishable from real backend output.  This refutes the claim. -/
theorem c1_counterexample :
    generateRealPredictions (.error ()) 0 50
      = generateRealPredictions (.ok (some (generateFallbackPredictions 0 50))) 0 50
  ∧ (generateRealPredictions (.error ()) 0 50).length = 3 :=
  ⟨rfl, rfl⟩

/-- C1 (amended): if the predict API call fails, the caller receives the
hard-coded sample predictions filtered by the confidence threshold, with no
provenance marking; the substituted result is identical to what a
successful response carrying the same predictions would deliver. -/
theorem c1_amended_silent_fallback : ∀ now conf : Int,
    generateRealPredictions (.error ()) now conf
      = (samplePredictions now).filter (fun pred => decide (conf ≤ pred.confidence))
  ∧ generateRealPredictions (.error ()) now conf
      = generateRealPredictions
          (.ok (some (generateRealPredictions (.error ()) now conf))) now conf :=
  fun _ _ => ⟨rfl, rfl⟩

theorem validateCustomRange_mul (a b : Int) :
    validateCustomRange (msPerDay * a) (msPerDay * b)
      = if 31 < b - a then .error "Date range cannot exceed 31 days"
        else if b < a then .error "Start date must be before end date"
        else .ok () := by
  unfold validateCustomRange jsCeilDiv
  have hm : (msPerDay : Int) ≠ 0 := by norm_num [msPerDay]
  have h1 : msPerDay * b - msPerDay * a = msPerDay * (b - a) := by ring
  have h2 : -(msPerDay * (b - a)) = msPerDay * -(b - a) := by ring
  have h3 : (msPerDay * b < msPerDay * a) ↔ b < a :=
    mul_lt_mul_left (show (0 : Int) < msPerDay by norm_num [msPerDay])
  rw [h1, h2, Int.mul_fdiv_cancel_left _ hm, neg_neg]
  simp only [h3]

/-- C2: a custom detect range spanning more than 31 days always fails with
the invalid-range error, a span of exactly 31 days always passes range
validation, and the concrete request from 2025-06-01 to 2025-07-03 (a 32-day
span) is rejected. -/
theorem c2_bounded_custom_range :
    (∀ a b : Int, 31 < b - a →
      validateCustomRange (msPerDay * a) (msPerDay * b)
        = .error "Date range cannot exceed 31 days")
  ∧ (∀ a b : Int, b - a = 31 →
      validateCustomRange (msPerDay * a) (msPerDay * b) = .ok ())
  ∧ validateCustomRange (dateMs 2025 6 1) (dateMs 2025 7 3)
      = .error "Date range cannot exceed 31 days" := by
  refine ⟨?_, ?_, ?_⟩
  · intro a b h
    rw [validateCustomRange_mul, if_pos h]
  · intro a b h
    rw [validateCustomRange_mul, if_neg (by omega), if_neg (by omega)]
  · rfl

/-- C2 witness: a 40-day span is rejected and a 31-day span is accepted. -/
theorem c2_bounded_custom_range_witness :
    validateCustomRange (msPerDay * 0) (msPerDay * 40)
      = .error "Date range cannot exceed 31 days"
  ∧ validateCustomRange (msPerDay * 0) (msPerDay * 31) = .ok () :=
  ⟨c2_bounded_custom_range.1 0 40 (by norm_num),
   c2_bounded_custom_range.2.1 0 31 (by norm_num)⟩

theorem validateCustomRange_error_msg (s e : Int) (m : String)
    (h : validateCustomRange s e = .error m) :
    m = "Date range cannot exceed 31 days"
    ∨ m = "Start date must be before end date" := by
  simp only [validateCustomRange] at h
  split_ifs at h <;> simp_all

theorem validateFilters_error_msg (f : FilterState) (m : String)
    (h : validateFilters f = .error m) :
    m = "Please select both start and end dates for custom range"
    ∨ m = "Date range cannot exceed 31 days"
    ∨ m = "Start date must be before end date" := by
  unfold validateFilters at h
  cases hdr : f.dateRange <;> rw [hdr] at h
  · exact absurd h (by simp)
  · exact absurd h (by simp)
  · cases hcs : f.customStartDate <;> cases hce : f.customEndDate <;>
      rw [hcs, hce] at h
    · simp only [Except.error.injEq] at h
      exact Or.inl h.symm
    · simp only [Except.error.injEq] at h
      exact Or.inl h.symm
    · simp only [Except.error.injEq] at h
      exact Or.inl h.symm
    · exact Or.inr (validateCustomRange_error_msg _ _ _ h)

/-- C8: whenever custom-range validation fails (missing bound, span over 31
days, or start after end), `handleRefresh` never invokes the detect API —
its result does not depend on the api function — the fire lists are left
empty, and the error banner carries one of the three specific messages. -/
theorem c8_fail_fast : ∀ (f : FilterState)
    (api api2 : FilterState → Except String FireFilterResponse) (m : String),
    validateFilters f = .error m →
    handleRefresh f api = handleRefresh f api2
    ∧ (handleRefresh f api).fires = []
    ∧ (handleRefresh f api).filteredFires = []
    ∧ (handleRefresh f api).error = some m
    ∧ (m = "Please select both start and end dates for custom range"
       ∨ m = "Date range cannot exceed 31 days"
       ∨ m = "Start date must be before end date") := by
  intro f api api2 m h
  unfold handleRefresh
  rw [h]
  exact ⟨rfl, rfl, rfl, rfl, validateFilters_error_msg f m h⟩

/-- C8 witness: with both custom bounds missing, the refresh result is
api-independent, empty, and carries the missing-bounds message. -/
theorem c8_fail_fast_witness :
    handleRefresh fMissingBounds apiOkStub = handleRefresh fMissingBounds apiErrStub
    ∧ (handleRefresh fMissingBounds apiOkStub).fires = []
    ∧ (handleRefresh fMissingBounds apiOkStub).filteredFires = []
    ∧ (handleRefresh fMissingBounds apiOkStub).error
        = some "Please select both start and end dates for custom range"
    ∧ ("Please select both start and end dates for custom range"
         = "Please select both start and end dates for custom range"
       ∨ "Please select both start and end dates for custom range"
         = "Date range cannot exceed 31 days"
       ∨ "Please select both start and end dates for custom range"
         = "Start date must be before end date") :=
  c8_fail_fast fMissingBounds apiOkStub apiErrStub
    "Please select both start and end dates for custom range" rfl

/-- C3: through both delivery paths — the spec-modelled engine output on a
successful predict call and the in-source fallback on a failed one — every
prediction delivered to the caller meets the caller-supplied confidence
threshold (proved for every integer threshold, so in particular for the
slider range 50 to 95). -/
theorem c3_confidence_filter : ∀ (apiFails : Bool) (hist : List PredictionData)
    (now t : Int),
    (generateRealPredictions (outcomeOf apiFails hist t) now t).all
      (fun pred => decide (t ≤ pred.confidence)) = true := by
  intro apiFails hist now t
  rw [List.all_eq_true]
  intro pred hp
  cases apiFails
  · simp only [outcomeOf, Bool.false_eq_true, if_false, generateRealPredictions,
      Option.getD_some, backendPredict] at hp
    have hm := (sortByCmp_perm specCmp
      (hist.filter (fun c => decide (t ≤ c.confidence)))).mem_iff.mp hp
    exact (List.mem_filter.mp hm).2
  · simp only [outcomeOf, if_true, generateRealPredictions,
      generateFallbackPredictions] at hp
    exact (List.mem_filter.mp hp).2

/-- C4: the spec-modelled risk-level thresholds are exactly the claimed
intervals — critical iff probability at least 90, high iff in [75, 90),
medium iff in [50, 75), low iff below 50 — and the in-source fallback sample
cells all carry the risk level their probability maps to. -/
theorem c4_risk_level_thresholds :
    (∀ p : Int,
      (riskLevelOf p = .critical ↔ 90 ≤ p)
      ∧ (riskLevelOf p = .high ↔ 75 ≤ p ∧ p < 90)
      ∧ (riskLevelOf p = .medium ↔ 50 ≤ p ∧ p < 75)
      ∧ (riskLevelOf p = .low ↔ p < 50))
    ∧ ∀ now : Int,
      (samplePredictions now).all
        (fun c => c.riskLevel == riskLevelOf c.probability) = true := by
  constructor
  · intro p
    unfold riskLevelOf
    refine ⟨?_, ?_, ?_, ?_⟩ <;> split_ifs <;> simp_all <;> omega
  · intro now
    rfl

/-- C5: the list presented by the recent-predictions panel is NOT ranked by
probability descending with confidence/latitude tie-breaks — the panel sorts
by creation time first, so a newer prediction with the lower probability is
presented above an older one with the higher probability.  This refutes the
claim at a concrete two-element input. -/
theorem c5_counterexample :
    sortedPredictions [predNewerLowProb, predOlderHighProb]
      = [predNewerLowProb, predOlderHighProb]
    ∧ predNewerLowProb.probability < predOlderHighProb.probability
    ∧ ¬ specRanked (sortedPredictions [predNewerLowProb, predOlderHighProb]) := by
  refine ⟨rfl, by decide, ?_⟩
  intro h
  unfold specRanked at h
  rw [show sortedPredictions [predNewerLowProb, predOlderHighProb]
        = [predNewerLowProb, predOlderHighProb] from rfl] at h
  have h1 := (List.pairwise_cons.mp h).1 predOlderHighProb (List.mem_singleton.mpr rfl)
  rcases h1 with h2 | ⟨h2, -⟩
  · exact absurd h2 (by decide)
  · exact absurd h2 (by decide)

theorem predCmp_le_iff (a b : PredictionData) :
    predCmp a b ≤ 0 ↔ panelRank a b := by
  unfold predCmp panelRank
  split_ifs <;> omega

/-- C5 (amended): the panel presents the predictions ordered by creation
time descending, ties broken by probability descending; the presented list
is a permutation of the prop, and since the sort is a pure function of the
list, repeated calls on the same data yield the same ordered list. -/
theorem c5_amended_panel_order : ∀ l : List PredictionData,
    (sortedPredictions l).Pairwise panelRank ∧ (sortedPredictions l).Perm l := by
  intro l
  constructor
  · exact (pairwise_sortByCmp predCmp predCmp_total predCmp_trans l).imp
      (fun hab => (predCmp_le_iff _ _).mp hab)
  · exact sortByCmp_perm predCmp l

/-- C6: every report that passes the form gates is submitted, the
spec-modelled intake stores the record, and the page surfaces the stored
record id in the acknowledgment banner. -/
theorem c6_report_ack : ∀ (f : UserReportData) (now : Int)
    (store : List StoredReport),
    submitFlow f = some f →
    (submitAndReport f now store).1
      = some ("Report submitted successfully! Report ID: "
          ++ (mkStoredReport f now).id)
    ∧ (submitAndReport f now store).2 = mkStoredReport f now :: store := by
  intro f now store h
  unfold submitAndReport
  rw [h]
  exact ⟨rfl, rfl⟩

/-- C6 witness: the default form data is valid and its submission is
acknowledged with the stored record id. -/
theorem c6_report_ack_witness :
    (submitAndReport defaultReport 0 []).1
      = some ("Report submitted successfully! Report ID: "
          ++ (mkStoredReport defaultReport 0).id)
    ∧ (submitAndReport defaultReport 0 []).2 = mkStoredReport defaultReport 0 :: [] :=
  c6_report_ack defaultReport 0 []
    (by norm_num [submitFlow, stepOk, validateStep, areaErrors, defaultReport])

/-- C7: a report is submitted only if its latitude lies in [20, 40], its
longitude in [68, 88] and any provided estimated area in [0, 1000] (the
severity is one of the four levels by the type of the field); both boundary
reports are accepted, so the bounds are inclusive. -/
theorem c7_report_validation :
    (∀ f : UserReportData, submitFlow f = some f →
      (20 ≤ f.latitude ∧ f.latitude ≤ 40)
      ∧ (68 ≤ f.longitude ∧ f.longitude ≤ 88)
      ∧ (match f.estimated_area with
         | some a => 0 ≤ a ∧ a ≤ 1000
         | none => True))
    ∧ submitFlow boundaryLowReport = some boundaryLowReport
    ∧ submitFlow boundaryHighReport = some boundaryHighReport := by
  refine ⟨?_, by decide, by decide⟩
  intro f h
  unfold submitFlow at h
  split_ifs at h with hc
  · simp only [Bool.and_eq_true] at hc
    obtain ⟨⟨hloc, hdet⟩, -⟩ := hc
    simp only [stepOk, validateStep] at hloc hdet
    have h1 : ¬(f.latitude = 0 ∨ f.latitude < 20 ∨ 40 < f.latitude) := by
      intro hcond
      rw [if_pos hcond] at hloc
      simp at hloc
    have h2 : ¬(f.longitude = 0 ∨ f.longitude < 68 ∨ 88 < f.longitude) := by
      intro hcond
      rw [if_pos hcond] at hloc
      simp at hloc
    push_neg at h1 h2
    refine ⟨⟨h1.2.1, h1.2.2⟩, ⟨h2.2.1, h2.2.2⟩, ?_⟩
    cases hea : f.estimated_area with
    | none => exact trivial
    | some a =>
      rw [hea] at hdet
      simp only [areaErrors] at hdet
      have h3 : ¬(a ≠ 0 ∧ (a < 0 ∨ 1000 < a)) := by
        intro hcond
        rw [if_pos hcond] at hdet
        simp at hdet
      rcases not_and_or.mp h3 with h4 | h4
      · have ha0 : a = 0 := not_not.mp h4
        rw [ha0]
        norm_num
      · push_neg at h4
        exact ⟨h4.1, h4.2⟩

/-- C7 witness: the lower-boundary report satisfies the claimed envelope. -/
theorem c7_report_validation_witness :
    (20 ≤ boundaryLowReport.latitude ∧ boundaryLowReport.latitude ≤ 40)
    ∧ (68 ≤ boundaryLowReport.longitude ∧ boundaryLowReport.longitude ≤ 88)
    ∧ (match boundaryLowReport.estimated_area with
       | some a => 0 ≤ a ∧ a ≤ 1000
       | none => True) :=
  c7_report_validation.1 boundaryLowReport (by decide)

/-- C9: on the empty fires or predictions list every aggregate is still
defined — the explicit length guards make the average confidence and average
probability evaluate to 0 instead of dividing by zero — and the panels take
their no-data empty-state branch instead of erroring. -/
theorem c9_empty_aggregates :
    averagePredictionConfidence [] = 0
    ∧ averagePredictionProbability [] = 0
    ∧ averageFireConfidence [] = 0
    ∧ predictionsEmptyState [] = true
    ∧ recentFiresEmptyState [] = true :=
  ⟨rfl, rfl, rfl, rfl, rfl⟩

/-- C10: the four fire-radiative-power display helpers agree on one
bucketing — high iff frp at least 40, medium iff frp in [10, 40), low iff
frp below 10 — and a missing frp is treated as 0 and classified low. -/
theorem c10_frp_severity_consistency :
    (∀ frp : ℚ,
      getPowerSeverityLabel frp = severityName (classifyFrp frp)
      ∧ getPowerSeverityColor frp = severityTextColor (classifyFrp frp)
      ∧ getPowerSeverityBg frp = severityBgClass (classifyFrp frp)
      ∧ getFireColor frp = severityHex (classifyFrp frp)
      ∧ (classifyFrp frp = .high ↔ 40 ≤ frp)
      ∧ (classifyFrp frp = .medium ↔ 10 ≤ frp ∧ frp < 40)
      ∧ (classifyFrp frp = .low ↔ frp < 10))
    ∧ classifyFrp (effectiveFrp none) = .low := by
  refine ⟨?_, rfl⟩
  intro frp
  by_cases h1 : 40 ≤ frp
  · simp only [getPowerSeverityLabel, getPowerSeverityColor, getPowerSeverityBg,
      getFireColor, classifyFrp, if_pos h1]
    refine ⟨rfl, rfl, rfl, rfl, by simp [h1], ?_, ?_⟩
    · constructor
      · intro hfalse
        exact absurd hfalse (by decide)
      · rintro ⟨-, hlt⟩
        linarith
    · constructor
      · intro hfalse
        exact absurd hfalse (by decide)
      · intro hlt
        linarith
  · by_cases h2 : 10 ≤ frp
    · simp only [getPowerSeverityLabel, getPowerSeverityColor, getPowerSeverityBg,
        getFireColor, classifyFrp, if_neg h1, if_pos h2]
      refine ⟨rfl, rfl, rfl, rfl, ?_, by simp [h2, lt_of_not_le h1], ?_⟩
      · constructor
        · intro hfalse
          exact absurd hfalse (by decide)
        · intro hge
          exact absurd hge h1
      · constructor
        · intro hfalse
          exact absurd hfalse (by decide)
        · intro hlt
          linarith
    · simp only [getPowerSeverityLabel, getPowerSeverityColor, getPowerSeverityBg,
        getFireColor, classifyFrp, if_neg h1, if_neg h2]
      refine ⟨rfl, rfl, rfl, rfl, ?_, ?_, by simp [lt_of_not_le h2]⟩
      · constructor
        · intro hfalse
          exact absurd hfalse (by decide)
        · intro hge
          linarith
      · constructor
        · intro hfalse
          exact absurd hfalse (by decide)
        · rintro ⟨hge, -⟩
          exact absurd hge h2
